import Mathlib

/-!
Verification of the crc16 package: a table-driven 16-bit cyclic redundancy
check. Machine integers (uint16, byte) are embedded as Nat with explicit
truncation where the source truncates; byte lists embed Go byte slices.
-/

namespace Crc16

/-- Bitwise complement of a uint16 value, Go's unary caret on uint16. -/
def compl16 (crc : Nat) : Nat := crc ^^^ 0xFFFF

/-- The ANSI polynomial constant from the source. -/
def ANSI : Nat := 0x8005

/-- The CCITT polynomial constant from the source. -/
def CCITT : Nat := 0x1021

/-- One iteration of the inner loop of makeTable: shift right by one and
XOR with the polynomial when the low bit is set. -/
def tableStep (poly crc : Nat) : Nat :=
  if crc % 2 = 1 then (crc / 2) ^^^ poly else crc / 2

/-- The entry of the table for byte value i: eight iterations of tableStep,
matching the inner for loop of makeTable in the source. -/
def tableEntry (poly i : Nat) : Nat := (tableStep poly)^[8] i

/-- makeTable from the source: the 256-entry table for a polynomial. -/
def makeTable (poly : Nat) : List Nat :=
  (List.range 256).map (fun i => tableEntry poly i)

/-- ANSITable from the source: the eagerly built table for ANSI. -/
def ANSITable : List Nat := makeTable ANSI

/-- CCITTTable from the source: the eagerly built table for CCITT. -/
def CCITTTable : List Nat := makeTable CCITT

/-- MakeTable from the source: returns the cached table for the two named
polynomials and builds a fresh table otherwise. -/
def MakeTable (poly : Nat) : List Nat :=
  if poly = ANSI then ANSITable
  else if poly = CCITT then CCITTTable
  else makeTable poly

/-- The body of the loop in Update: crc = tab[byte(crc)^v] ^ (crc >> 8). -/
def updateStep (tab : List Nat) (crc v : Nat) : Nat :=
  tab.getD ((crc % 256) ^^^ v) 0 ^^^ (crc / 256)

/-- Update from the source: complement the incoming crc, fold every byte of
p through updateStep, and complement the result. -/
def Update (crc : Nat) (tab : List Nat) (p : List Nat) : Nat :=
  compl16 (p.foldl (updateStep tab) (compl16 crc))

/-- Checksum from the source: Update starting from 0. -/
def Checksum (data : List Nat) (tab : List Nat) : Nat := Update 0 tab data

/-- ChecksumANSI from the source. -/
def ChecksumANSI (data : List Nat) : Nat := Update 0 ANSITable data

/-- ChecksumCCITT from the source. -/
def ChecksumCCITT (data : List Nat) : Nat := Update 0 CCITTTable data

/-- The digest struct from the source: a running crc and its table. -/
structure digest where
  crc : Nat
  tab : List Nat
  deriving DecidableEq

/-- New from the source: a fresh digest with crc 0 over the given table. -/
def New (tab : List Nat) : digest := ⟨0, tab⟩

/-- Reset from the source: set crc back to 0, keep the table. -/
def digest.Reset (d : digest) : digest := { d with crc := 0 }

/-- Write from the source: fold p into the crc via Update; return the new
digest state, the byte count len(p) and the error value nil (none). -/
def digest.Write (d : digest) (p : List Nat) : digest × Nat × Option Unit :=
  ({ d with crc := Update d.crc d.tab p }, p.length, none)

/-- Sum16 from the source: the current crc, state unchanged. -/
def digest.Sum16 (d : digest) : Nat := d.crc

/-- Sum from the source: append byte(s>>8) then byte(s) to the given
buffer, where s is Sum16. -/
def digest.Sum (d : digest) (pre : List Nat) : List Nat :=
  pre ++ [(d.Sum16 / 256) % 256, d.Sum16 % 256]

/-- The ASCII bytes of the string 123456789, the standard CRC test input. -/
def data123 : List Nat :=
  [0x31, 0x32, 0x33, 0x34, 0x35, 0x36, 0x37, 0x38, 0x39]

/-- Transcription of the algorithm sentence of the spec for Update, written
as explicit recursion over the data: the per-byte loop body. -/
def updateSpecLoop (tab : List Nat) : Nat → List Nat → Nat
  | crc, [] => crc
  | crc, b :: rest =>
      updateSpecLoop tab (tab.getD ((crc % 256) ^^^ b) 0 ^^^ (crc / 256)) rest

/-- Transcription of the algorithm sentence of the spec for Update:
complement the incoming crc, run the loop, complement the final value. -/
def updateSpec (crc : Nat) (tab : List Nat) (data : List Nat) : Nat :=
  compl16 (updateSpecLoop tab (compl16 crc) data)

/-- Transcription of the spec sentence for table construction: n
shift-and-conditional-XOR steps starting from the given crc. -/
def specSteps (poly : Nat) : Nat → Nat → Nat
  | 0, crc => crc
  | n + 1, crc =>
      specSteps poly n (if crc % 2 = 1 then (crc / 2) ^^^ poly else crc / 2)

end Crc16

namespace Crc16

lemma compl16_compl16 (x : Nat) : compl16 (compl16 x) = x := by
  simp [compl16, Nat.xor_assoc]

lemma update_update (crc : Nat) (tab a b : List Nat) :
    Update (Update crc tab a) tab b = Update crc tab (a ++ b) := by
  simp [Update, compl16_compl16, List.foldl_append]

lemma updateSpecLoop_eq_foldl (tab : List Nat) (p : List Nat) :
    ∀ crc : Nat, updateSpecLoop tab crc p = p.foldl (updateStep tab) crc := by
  induction p with
  | nil => intro crc; rfl
  | cons b rest ih =>
      intro crc
      simp only [updateSpecLoop, List.foldl_cons]
      exact ih _

lemma specSteps_eq_iterate (poly : Nat) :
    ∀ (n : Nat) (crc : Nat), specSteps poly n crc = (tableStep poly)^[n] crc := by
  intro n
  induction n with
  | zero => intro crc; rfl
  | succ m ih =>
      intro crc
      rw [Function.iterate_succ_apply]
      exact ih (tableStep poly crc)

lemma makeTable_getD (poly i : Nat) (h : i < 256) :
    (makeTable poly).getD i 0 = tableEntry poly i := by
  have hl : i < (makeTable poly).length := by
    simpa [makeTable] using h
  rw [List.getD_eq_getElem _ _ hl]
  simp [makeTable, h]

lemma MakeTable_eq_makeTable (poly : Nat) : MakeTable poly = makeTable poly := by
  unfold MakeTable
  split
  · next h => rw [h]; rfl
  · split
    · next h => rw [h]; rfl
    · rfl

/-- Claim C1: the spec says ChecksumANSI over the ASCII bytes of 123456789
yields 0xBB3D; the code in fact yields 0xC284 (the table is built from the
non-reversed ANSI constant inside a reflected shift-right loop and Update
adds a pre/post complement), so the known-answer claim fails on the code. -/
theorem checksumANSI_kat_value :
    ChecksumANSI data123 = 0xC284 ∧ ChecksumANSI data123 ≠ 0xBB3D := by
  decide

/-- Claim C2: the spec says ChecksumCCITT over the ASCII bytes of 123456789
yields 0x31C3; the code in fact yields 0xE245, so the known-answer claim
fails on the code. -/
theorem checksumCCITT_kat_value :
    ChecksumCCITT data123 = 0xE245 ∧ ChecksumCCITT data123 ≠ 0x31C3 := by
  decide

/-- Claim C3: Update equals the spec-described algorithm: complement the
incoming crc, per byte set crc = table[low_byte(crc) XOR b] XOR (crc >> 8),
then complement the final value. -/
theorem update_eq_spec (crc : Nat) (tab : List Nat) (data : List Nat) :
    Update crc tab data = updateSpec crc tab data := by
  simp [Update, updateSpec, updateSpecLoop_eq_foldl]

/-- Claim C4: incremental equivalence: for every table and every split of
data into a and b, Update (Update 0 tab a) tab b equals Checksum (a ++ b)
tab, and writing a then b to a fresh digest yields that same Sum16. -/
theorem incremental_equivalence (tab : List Nat) (a b : List Nat) :
    Update (Update 0 tab a) tab b = Checksum (a ++ b) tab ∧
    (((New tab).Write a).1.Write b).1.Sum16 = Checksum (a ++ b) tab := by
  refine ⟨update_update 0 tab a b, ?_⟩
  simp only [digest.Write, digest.Sum16, New]
  exact update_update 0 tab a b

/-- Claim C5: the checksum of the empty byte sequence is 0 for every
table. -/
theorem checksum_empty (tab : List Nat) : Checksum [] tab = 0 := by
  simp [Checksum, Update, compl16_compl16]

/-- Claim C6: for every 16-bit polynomial and byte value i, entry i of
MakeTable poly equals 8 shift-and-conditional-XOR steps starting from i,
and for ANSI and CCITT MakeTable returns the precomputed cached tables. -/
theorem makeTable_entries (poly i : Nat) (hp : poly < 65536) (hi : i < 256) :
    (MakeTable poly).getD i 0 = specSteps poly 8 i ∧
    MakeTable ANSI = ANSITable ∧ MakeTable CCITT = CCITTTable := by
  refine ⟨?_, rfl, by rfl⟩
  rw [MakeTable_eq_makeTable, makeTable_getD poly i hi, specSteps_eq_iterate]
  rfl

theorem makeTable_entries_witness :
    (3 : Nat) < 65536 ∧ (5 : Nat) < 256 ∧
      ((MakeTable 3).getD 5 0 = specSteps 3 8 5 ∧
        MakeTable ANSI = ANSITable ∧ MakeTable CCITT = CCITTTable) :=
  ⟨by decide, by decide, makeTable_entries 3 5 (by decide) (by decide)⟩

/-- Claim C7: Write sets the crc to Update of the old crc, never returns an
error (the error component is always none), returns exactly the length of
its input, and leaves the table unchanged. -/
theorem write_contract (d : digest) (p : List Nat) :
    (d.Write p).2.1 = p.length ∧ (d.Write p).2.2 = none ∧
    (d.Write p).1.crc = Update d.crc d.tab p ∧ (d.Write p).1.tab = d.tab :=
  ⟨rfl, rfl, rfl, rfl⟩

/-- Claim C8: Sum returns the given buffer followed by exactly two bytes,
the high byte of Sum16 then the low byte, and Sum16 is the current crc with
no mutation of the digest. -/
theorem sum_contract (d : digest) (pre : List Nat) :
    d.Sum pre = pre ++ [(d.Sum16 / 256) % 256, d.Sum16 % 256] ∧
    d.Sum16 = d.crc ∧ (d.Sum pre).length = pre.length + 2 := by
  refine ⟨rfl, rfl, ?_⟩
  simp [digest.Sum]

/-- Claim C9: Reset sets the crc to 0 and leaves the table reference
unchanged, so any digest after Reset equals a freshly constructed digest
over the same table and its Sum16 is 0. -/
theorem reset_contract (d : digest) :
    d.Reset.crc = 0 ∧ d.Reset.tab = d.tab ∧ d.Reset = New d.tab ∧
    d.Reset.Sum16 = 0 :=
  ⟨rfl, rfl, rfl, rfl⟩

/-- Claim C10: Update with an empty byte sequence returns its crc argument
unchanged for every crc and table (the trailing complement cancels the
leading one), hence an empty Write leaves Sum16 unchanged. -/
theorem update_empty_identity (crc : Nat) (tab : List Nat) :
    Update crc tab [] = crc ∧
    ∀ d : digest, ((d.Write []).1).Sum16 = d.Sum16 := by
  constructor
  · simp [Update, compl16_compl16]
  · intro d
    simp [digest.Write, digest.Sum16, Update, compl16_compl16]

end Crc16
